import Mathlib

/-!
Shallow embedding of `src/frontend/script.js` from the e-consult repository.

The page is modelled as a record of the DOM pieces the script reads and
writes (input field values, innerHTML of the message/answer/references
areas, the display style of the loading spinner and answer section, and
the disabled flag of the search button).  Each `async` handler becomes a
pure function from the page state and the outcome of its single `fetch`
call to the new page state, paired with the list of HTTP requests the
invocation issued.  A fetch outcome is either a 2xx response carrying a
parsed JSON body, a non-2xx response carrying the status code, or a
thrown error carrying its message.  JavaScript truthiness on optional
strings (`x || y`, `if (x)`) is modelled explicitly: `none` and `some ""`
are falsy.
-/

namespace EConsult

/-- One entry of `llm_output.sources_used` in a search response. -/
structure Source where
  title : String
  url : String
  deriving Repr, DecidableEq

/-- The `llm_output` object of a search response. -/
structure LLMOutput where
  summary : Option String
  sources_used : Option (List Source)
  deriving Repr, DecidableEq

/-- Body of a `POST /api/search` response. -/
structure SearchResponse where
  success : Bool
  llm_output : Option LLMOutput
  error_message : Option String
  deriving Repr, DecidableEq

/-- The `settings` object of a `GET /api/settings` response. -/
structure Settings where
  default_system_prompts : Option String
  deriving Repr, DecidableEq

/-- Body of a `GET /api/settings` response. -/
structure SettingsResponse where
  success : Bool
  settings : Option Settings
  deriving Repr, DecidableEq

/-- Body of a `POST /api/settings` or `DELETE /api/settings` response. -/
structure MsgResponse where
  success : Bool
  message : Option String
  deriving Repr, DecidableEq

/-- Outcome of one `fetch` call: a 2xx response with parsed JSON body
`α`, a non-2xx response (the handlers throw on `!response.ok`), or a
thrown error (network failure or JSON parse failure) with its message. -/
inductive FetchResult (α : Type) where
  | ok (data : α)
  | notOk (status : Nat)
  | thrown (msg : String)
  deriving Repr, DecidableEq

/-- An HTTP request issued by a handler, with the fields its JSON body
carries. -/
inductive Request where
  | getSettings
  | postSettings (default_system_prompts : String)
  | deleteSettings
  | postSearch (query : String) (doctor_instructions : String)
  deriving Repr, DecidableEq

/-- The DOM state the script reads and writes. -/
structure PageState where
  /-- value of the `defaultSystemPrompts` input -/
  defaultSystemPrompts : String
  /-- value of the `question` textarea -/
  question : String
  /-- value of the `doctorInstructions` input -/
  doctorInstructions : String
  /-- innerHTML of `messageArea` -/
  messageArea : String
  /-- innerHTML of `answerContent` -/
  answerContent : String
  /-- innerHTML of `referencesContent` -/
  referencesContent : String
  /-- display style of the `answerSection` element -/
  answerDisplay : String
  /-- display style of the `loading` element -/
  loadingDisplay : String
  /-- disabled flag of the `searchBtn` button -/
  searchBtnDisabled : Bool
  deriving Repr, DecidableEq

/-- JavaScript `String.prototype.trim`: drops leading and trailing
whitespace characters.  Defined structurally over the character list so
that it evaluates by kernel reduction. -/
def jsTrim (s : String) : String :=
  ⟨((s.data.dropWhile Char.isWhitespace).reverse.dropWhile
      Char.isWhitespace).reverse⟩

/-- JavaScript `a || b` on an optional string: `none` and `some ""` are
falsy. -/
def jsOr (a : Option String) (b : String) : String :=
  match a with
  | some s => if s == "" then b else s
  | none => b

/-- JavaScript truthiness of an optional string. -/
def jsTruthyStr (a : Option String) : Bool :=
  match a with
  | some s => s != ""
  | none => false

/-- Message of the error thrown on a non-2xx response:
`HTTP error! status: N`. -/
def httpErrorMsg (status : Nat) : String :=
  "HTTP error! status: " ++ toString status

/-- Message of the TypeError thrown when `displayResults` reads
`data.llm_output.summary` and `llm_output` is absent. -/
def typeErrorMsg : String :=
  "Cannot read properties of undefined (reading summary)"

/-- `showMessage(message, type)`: sets the innerHTML of the message
area to a div of the given class holding the message. -/
def messageDiv (message ty : String) : String :=
  "<div class=\x22" ++ ty ++ "\x22>" ++ message ++ "</div>"

def showMessage (message ty : String) (s : PageState) : PageState :=
  { s with messageArea := messageDiv message ty }

/-- `hideMessage()` -/
def hideMessage (s : PageState) : PageState :=
  { s with messageArea := "" }

/-- `showLoading(show)` -/
def showLoading (sh : Bool) (s : PageState) : PageState :=
  { s with loadingDisplay := if sh then "block" else "none",
           searchBtnDisabled := sh }

/-- `showAnswerSection()` -/
def showAnswerSection (s : PageState) : PageState :=
  { s with answerDisplay := "block" }

/-- `hideAnswerSection()` -/
def hideAnswerSection (s : PageState) : PageState :=
  { s with answerDisplay := "none" }

/-- The `<li>` link built for one entry of `sources_used`. -/
def sourceLinkHTML (r : Source) : String :=
  "<li><a href=\x22" ++ r.url ++
    "\x22 target=\x22_blank\x22 rel=\x22noopener noreferrer\x22>" ++
    r.title ++ "</a></li>"

/-- The references HTML accumulated by the `forEach` loop of
`displayResults` for a non-empty source list. -/
def referencesHTML (srcs : List Source) : String :=
  "<h4>Gebruikte bronnen:</h4><ul>" ++
    String.join (srcs.map sourceLinkHTML) ++ "</ul>"

/-- `displayResults(data)`.  Reading `data.llm_output.summary` throws a
TypeError when `llm_output` is absent, modelled as `none`; otherwise the
summary (or a placeholder) is written to the answer content, the source
links (or a placeholder) to the references content, and the answer
section is shown. -/
def displayResults (data : SearchResponse) (s : PageState) :
    Option PageState :=
  match data.llm_output with
  | none => none
  | some lo =>
      let s1 := { s with
        answerContent := jsOr lo.summary "Geen samenvatting beschikbaar." }
      let s2 :=
        match lo.sources_used with
        | some srcs =>
            if 0 < srcs.length then
              { s1 with referencesContent := referencesHTML srcs }
            else
              { s1 with referencesContent := "<p>Geen bronnen gevonden.</p>" }
        | none =>
            { s1 with referencesContent := "<p>Geen bronnen gevonden.</p>" }
      some (showAnswerSection s2)

/-- `loadSettings()`. -/
def loadSettings (s : PageState) (r : FetchResult SettingsResponse) :
    PageState × List Request :=
  let reqs := [Request.getSettings]
  match r with
  | FetchResult.notOk _ =>
      (showMessage "Kon instellingen niet laden" "error" s, reqs)
  | FetchResult.thrown _ =>
      (showMessage "Kon instellingen niet laden" "error" s, reqs)
  | FetchResult.ok data =>
      match data.settings with
      | some st =>
          if data.success then
            ({ s with
                defaultSystemPrompts := jsOr st.default_system_prompts "" },
              reqs)
          else (s, reqs)
      | none => (s, reqs)

/-- `saveSettings()`. -/
def saveSettings (s : PageState) (r : FetchResult MsgResponse) :
    PageState × List Request :=
  let reqs := [Request.postSettings (jsTrim s.defaultSystemPrompts)]
  match r with
  | FetchResult.notOk status =>
      (showMessage ("Fout bij opslaan instellingen: " ++ httpErrorMsg status)
        "error" s, reqs)
  | FetchResult.thrown msg =>
      (showMessage ("Fout bij opslaan instellingen: " ++ msg) "error" s, reqs)
  | FetchResult.ok data =>
      if data.success then
        (showMessage "Instellingen succesvol opgeslagen!" "success" s, reqs)
      else
        (showMessage ("Fout bij opslaan instellingen: " ++
          jsOr data.message "Onbekende fout opgetreden") "error" s, reqs)

/-- `resetSettings()`.  `confirmed` is the result of the `confirm`
dialog; when the user declines, the handler returns before any fetch. -/
def resetSettings (confirmed : Bool) (s : PageState)
    (r : FetchResult MsgResponse) : PageState × List Request :=
  if !confirmed then (s, [])
  else
    let reqs := [Request.deleteSettings]
    match r with
    | FetchResult.notOk status =>
        (showMessage ("Fout bij resetten instellingen: " ++ httpErrorMsg status)
          "error" s, reqs)
    | FetchResult.thrown msg =>
        (showMessage ("Fout bij resetten instellingen: " ++ msg) "error" s,
          reqs)
    | FetchResult.ok data =>
        if data.success then
          (showMessage "Instellingen gereset naar standaardwaarden!" "success"
            { s with defaultSystemPrompts := "" }, reqs)
        else
          (showMessage ("Fout bij resetten instellingen: " ++
            jsOr data.message "Onbekende fout opgetreden") "error" s, reqs)

/-- The part of `performSearch` after the fetch: branching on the
response, with `displayResults` possibly throwing inside the `try`. -/
def searchRespond (s : PageState) (r : FetchResult SearchResponse) :
    PageState :=
  match r with
  | FetchResult.notOk status =>
      showMessage ("Fout bij zoeken: " ++ httpErrorMsg status) "error" s
  | FetchResult.thrown msg =>
      showMessage ("Fout bij zoeken: " ++ msg) "error" s
  | FetchResult.ok data =>
      if data.success then
        match displayResults data s with
        | some s2 => showMessage "Zoekopdracht succesvol voltooid!" "success" s2
        | none => showMessage ("Fout bij zoeken: " ++ typeErrorMsg) "error" s
      else
        match data.llm_output with
        | some lo =>
            if jsTruthyStr lo.summary then
              match displayResults data s with
              | some s2 =>
                  showMessage ("Waarschuwing: " ++
                    jsOr data.error_message "Onbekende fout opgetreden")
                    "warning" s2
              | none =>
                  showMessage ("Fout bij zoeken: " ++ typeErrorMsg) "error" s
            else
              showMessage ("Fout bij zoeken: " ++
                jsOr data.error_message "Onbekende fout opgetreden") "error" s
        | none =>
            showMessage ("Fout bij zoeken: " ++
              jsOr data.error_message "Onbekende fout opgetreden") "error" s

/-- `performSearch()`.  An empty trimmed question short-circuits before
any fetch; otherwise loading is shown, the message and answer section
hidden, one POST issued, the response handled, and loading hidden in the
`finally` block on every path. -/
def performSearch (s : PageState) (r : FetchResult SearchResponse) :
    PageState × List Request :=
  if (jsTrim s.question) == "" then
    (showMessage "Vul eerst een vraag in." "error" s, [])
  else
    (showLoading false
      (searchRespond (hideAnswerSection (hideMessage (showLoading true s))) r),
     [Request.postSearch (jsTrim s.question) (jsTrim s.doctorInstructions)])

/-- A page state used to instantiate universally quantified theorems at
concrete inputs. -/
def state0 : PageState :=
  { defaultSystemPrompts := "oude prompt"
    question := "Wat is de dosering?"
    doctorInstructions := "  kort antwoord  "
    messageArea := ""
    answerContent := ""
    referencesContent := ""
    answerDisplay := "none"
    loadingDisplay := "none"
    searchBtnDisabled := false }

/-- `messageShown p` holds when the message area holds a rendered
message div. -/
def messageShown (p : PageState) : Prop :=
  ∃ m t, p.messageArea = messageDiv m t

/-- A page state whose question is whitespace only, for instantiating
the empty-question theorems. -/
def state1 : PageState :=
  { state0 with question := "   " }

/-- Rendering of the source list as the search contract describes it:
one link per entry of `sources_used`, in list order, each built from
that entry's url and title; a placeholder when the list is missing or
empty. -/
def renderedSources (sources : Option (List Source)) : String :=
  match sources with
  | some [] => "<p>Geen bronnen gevonden.</p>"
  | some srcs =>
      "<h4>Gebruikte bronnen:</h4><ul>" ++
        String.join (srcs.map sourceLinkHTML) ++ "</ul>"
  | none => "<p>Geen bronnen gevonden.</p>"

/-- When `llm_output` is present, `displayResults` returns a state
(rather than throwing). -/
theorem displayResults_some (data : SearchResponse) (s : PageState)
    (lo : LLMOutput) (h : data.llm_output = some lo) :
    ∃ s2, displayResults data s = some s2 := by
  simp only [displayResults, h]
  exact ⟨_, rfl⟩

/-- `searchRespond` on a 2xx response with `success:false` always shows
a message (warning or error). -/
theorem searchRespond_ok_failure_shown (s : PageState)
    (data : SearchResponse) (h : data.success = false) :
    messageShown (searchRespond s (FetchResult.ok data)) := by
  obtain ⟨succ, lo, em⟩ := data
  cases succ with
  | true => exact Bool.noConfusion h
  | false =>
      cases lo with
      | none => exact ⟨_, _, rfl⟩
      | some l =>
          cases h2 : jsTruthyStr l.summary with
          | false =>
              simp only [searchRespond, h2, Bool.false_eq_true, if_false]
              exact ⟨_, _, rfl⟩
          | true =>
              obtain ⟨s2, hs2⟩ := displayResults_some
                { success := false, llm_output := some l, error_message := em }
                s l rfl
              simp only [searchRespond, h2, if_true, hs2]
              exact ⟨_, _, rfl⟩

/-- The message area after `performSearch` with a non-empty question is
the message area left by the response branch. -/
theorem performSearch_messageArea (s : PageState)
    (r : FetchResult SearchResponse) (hq : (jsTrim s.question) ≠ "") :
    (performSearch s r).1.messageArea =
      (searchRespond (hideAnswerSection (hideMessage (showLoading true s)))
        r).messageArea := by
  simp [performSearch, hq, showLoading]

/-- C1 (amended): for saveSettings, resetSettings and performSearch,
every failure outcome (non-2xx, thrown, or `success:false`) is caught
and surfaced as a UI message; for loadSettings this holds for non-2xx
and thrown failures, while a 2xx response with `success:false` is
silently ignored (no message, state unchanged); and no handler ever
issues a second request in one invocation. -/
theorem handlers_surface_failures (s : PageState) (status : Nat)
    (msg : String) (dM : MsgResponse) (dS : SearchResponse)
    (hM : dM.success = false) (hS : dS.success = false)
    (hq : (jsTrim s.question) ≠ "") :
    messageShown (loadSettings s (FetchResult.notOk status)).1 ∧
    messageShown (loadSettings s (FetchResult.thrown msg)).1 ∧
    messageShown (saveSettings s (FetchResult.notOk status)).1 ∧
    messageShown (saveSettings s (FetchResult.thrown msg)).1 ∧
    messageShown (saveSettings s (FetchResult.ok dM)).1 ∧
    messageShown (resetSettings true s (FetchResult.notOk status)).1 ∧
    messageShown (resetSettings true s (FetchResult.thrown msg)).1 ∧
    messageShown (resetSettings true s (FetchResult.ok dM)).1 ∧
    messageShown (performSearch s (FetchResult.notOk status)).1 ∧
    messageShown (performSearch s (FetchResult.thrown msg)).1 ∧
    messageShown (performSearch s (FetchResult.ok dS)).1 ∧
    (loadSettings s
      (FetchResult.ok { success := false, settings := none })).1 = s ∧
    (∀ r1 : FetchResult SettingsResponse,
      (loadSettings s r1).2.length ≤ 1) ∧
    (∀ r2 : FetchResult MsgResponse, (saveSettings s r2).2.length ≤ 1) ∧
    (∀ (c : Bool) (r3 : FetchResult MsgResponse),
      (resetSettings c s r3).2.length ≤ 1) ∧
    (∀ r4 : FetchResult SearchResponse,
      (performSearch s r4).2.length ≤ 1) := by
  obtain ⟨succM, mM⟩ := dM
  cases succM with
  | true => exact Bool.noConfusion hM
  | false =>
      refine ⟨⟨_, _, rfl⟩, ⟨_, _, rfl⟩, ⟨_, _, rfl⟩, ⟨_, _, rfl⟩,
        ⟨_, _, rfl⟩, ⟨_, _, rfl⟩, ⟨_, _, rfl⟩, ⟨_, _, rfl⟩,
        ?_, ?_, ?_, rfl, ?_, ?_, ?_, ?_⟩
      · exact ⟨_, _, performSearch_messageArea s _ hq⟩
      · exact ⟨_, _, performSearch_messageArea s _ hq⟩
      · obtain ⟨m, t, hm⟩ := searchRespond_ok_failure_shown
          (hideAnswerSection (hideMessage (showLoading true s))) dS hS
        exact ⟨m, t, (performSearch_messageArea s _ hq).trans hm⟩
      · intro r1
        cases r1 with
        | ok data =>
            rcases data with ⟨succ, st⟩
            cases st <;> cases succ <;> simp [loadSettings]
        | notOk st2 => simp [loadSettings]
        | thrown m2 => simp [loadSettings]
      · intro r2
        cases r2 with
        | ok data =>
            rcases data with ⟨succ, m2⟩
            cases succ <;> simp [saveSettings]
        | notOk st2 => simp [saveSettings]
        | thrown m2 => simp [saveSettings]
      · intro c r3
        cases c with
        | false => simp [resetSettings]
        | true =>
            cases r3 with
            | ok data =>
                rcases data with ⟨succ, m2⟩
                cases succ <;> simp [resetSettings]
            | notOk st2 => simp [resetSettings]
            | thrown m2 => simp [resetSettings]
      · intro r4
        by_cases hq4 : (jsTrim s.question) = "" <;> simp [performSearch, hq4]

/-- C1 counterexample: a 2xx settings response with `success:false`
leaves the page unchanged — in particular, no UI message is displayed
(the message area stays empty), refuting the claim that every
application-level failure is surfaced in every handler. -/
theorem loadSettings_silent_on_success_false :
    (loadSettings state0
      (FetchResult.ok { success := false, settings := none })).1 = state0 ∧
    state0.messageArea = "" ∧
    messageDiv "Kon instellingen niet laden" "error" ≠ "" :=
  ⟨rfl, rfl, by decide⟩

/-- Witness for `handlers_surface_failures` at concrete inputs. -/
theorem handlers_surface_failures_witness :
    messageShown (loadSettings state0 (FetchResult.notOk 500)).1 :=
  (handlers_surface_failures state0 500 "netwerkfout"
    { success := false, message := some "kapot" }
    { success := false, llm_output := none, error_message := none }
    rfl rfl (by decide)).1

/-- C3: for every `GET /api/settings` response with `success:true` and a
settings object present, `loadSettings` sets the settings input field to
the server's `default_system_prompts` value, the empty string when that
value is absent. -/
theorem loadSettings_sets_field_from_server (s : PageState)
    (data : SettingsResponse) (st : Settings)
    (hs : data.success = true) (hset : data.settings = some st) :
    (loadSettings s (FetchResult.ok data)).1.defaultSystemPrompts =
      st.default_system_prompts.getD "" := by
  simp only [loadSettings, hset, hs, if_true]
  cases h : st.default_system_prompts with
  | none => simp [jsOr]
  | some v =>
      by_cases hv : v = "" <;> simp [jsOr, hv]

/-- Witness for `loadSettings_sets_field_from_server` at a concrete
response. -/
theorem loadSettings_sets_field_from_server_witness :
    (loadSettings state0 (FetchResult.ok
      { success := true,
        settings := some { default_system_prompts := some "abc" } })
      ).1.defaultSystemPrompts =
      (some "abc" : Option String).getD "" :=
  loadSettings_sets_field_from_server state0
    { success := true,
      settings := some { default_system_prompts := some "abc" } }
    { default_system_prompts := some "abc" } rfl rfl

/-- C2: for every search response with `success:true` (which, per the
wire contract, carries an `llm_output` object), `displayResults` writes
the summary — or the placeholder when it is absent or empty — to the
answer content, renders exactly one link per entry of `sources_used` in
list order from that entry's url and title (or the no-sources
placeholder), and makes the answer section visible. -/
theorem displayResults_renders_summary_and_sources (s : PageState)
    (data : SearchResponse) (lo : LLMOutput)
    (hs : data.success = true) (hlo : data.llm_output = some lo) :
    displayResults data s = some { s with
      answerContent := jsOr lo.summary "Geen samenvatting beschikbaar.",
      referencesContent := renderedSources lo.sources_used,
      answerDisplay := "block" } := by
  simp only [displayResults, hlo]
  cases h : lo.sources_used with
  | none => simp [renderedSources, showAnswerSection]
  | some srcs =>
      cases srcs with
      | nil => simp [renderedSources, showAnswerSection]
      | cons a l =>
          simp [renderedSources, showAnswerSection, referencesHTML]

/-- A concrete `llm_output` with one source, used by the witnesses. -/
def llmOut0 : LLMOutput :=
  { summary := some "antwoord"
    sources_used := some [{ title := "titel", url := "adres" }] }

/-- A concrete successful search response, used by the witnesses. -/
def searchData0 : SearchResponse :=
  { success := true
    llm_output := some llmOut0
    error_message := none }

/-- Witness for `displayResults_renders_summary_and_sources` at a
concrete successful response with one source. -/
theorem displayResults_renders_witness :
    displayResults searchData0 state0 =
      some { state0 with
        answerContent := jsOr llmOut0.summary "Geen samenvatting beschikbaar.",
        referencesContent := renderedSources llmOut0.sources_used,
        answerDisplay := "block" } :=
  displayResults_renders_summary_and_sources state0 searchData0 llmOut0
    rfl rfl

/-- C4 (amended): a loadSettings fetch that fails with a non-2xx
response or a thrown error displays the error message and leaves the
settings field unchanged; a 2xx response without both `success:true`
and a settings object leaves the whole page unchanged — the field is
not set, but no error message is displayed either. -/
theorem loadSettings_failure_leaves_field (s : PageState) (status : Nat)
    (msg : String) (data : SettingsResponse)
    (hbad : data.success = false ∨ data.settings = none) :
    ((loadSettings s (FetchResult.notOk status)).1.messageArea =
        messageDiv "Kon instellingen niet laden" "error" ∧
      (loadSettings s (FetchResult.notOk status)).1.defaultSystemPrompts =
        s.defaultSystemPrompts) ∧
    ((loadSettings s (FetchResult.thrown msg)).1.messageArea =
        messageDiv "Kon instellingen niet laden" "error" ∧
      (loadSettings s (FetchResult.thrown msg)).1.defaultSystemPrompts =
        s.defaultSystemPrompts) ∧
    (loadSettings s (FetchResult.ok data)).1 = s := by
  refine ⟨⟨rfl, rfl⟩, ⟨rfl, rfl⟩, ?_⟩
  obtain ⟨succ, st⟩ := data
  rcases hbad with hb | hb
  · cases succ with
    | true => exact Bool.noConfusion hb
    | false => cases st <;> rfl
  · cases st with
    | some st2 => exact Option.noConfusion hb
    | none => rfl

/-- C4 counterexample: a 2xx settings response with `success:true` but
no settings object displays no error message (the message area stays
empty), refuting the claim that every failed settings fetch surfaces an
error. -/
theorem loadSettings_silent_on_missing_settings :
    (loadSettings state0
      (FetchResult.ok { success := true, settings := none })
      ).1.messageArea = "" ∧
    messageDiv "Kon instellingen niet laden" "error" ≠ "" :=
  ⟨rfl, by decide⟩

/-- Witness for `loadSettings_failure_leaves_field` at a concrete
response missing the settings object. -/
theorem loadSettings_failure_leaves_field_witness :
    (loadSettings state0
      (FetchResult.ok { success := true, settings := none })).1 = state0 :=
  (loadSettings_failure_leaves_field state0 500 "netwerkfout"
    { success := true, settings := none } (Or.inr rfl)).2.2

/-- C5: for every invocation of `performSearch` with a non-empty trimmed
question, the single request issued is a POST to `/api/search` whose body
carries exactly the trimmed question as `query` and the trimmed doctor
instructions as `doctor_instructions`. -/
theorem performSearch_request_body (s : PageState)
    (r : FetchResult SearchResponse) (hq : (jsTrim s.question) ≠ "") :
    (performSearch s r).2 =
      [Request.postSearch (jsTrim s.question) (jsTrim s.doctorInstructions)] := by
  simp [performSearch, hq]

/-- Witness for `performSearch_request_body` at a concrete state. -/
theorem performSearch_request_body_witness :
    (performSearch state0 (FetchResult.thrown "netwerkfout")).2 =
      [Request.postSearch (jsTrim state0.question)
        (jsTrim state0.doctorInstructions)] :=
  performSearch_request_body state0 (FetchResult.thrown "netwerkfout")
    (by decide)

/-- C6: every invocation of `saveSettings` issues exactly one POST to
`/api/settings` whose body carries exactly the trimmed settings input as
`default_system_prompts`, and never modifies the settings input field. -/
theorem saveSettings_request_body_and_field (s : PageState)
    (r : FetchResult MsgResponse) :
    (saveSettings s r).2 =
      [Request.postSettings (jsTrim s.defaultSystemPrompts)] ∧
    (saveSettings s r).1.defaultSystemPrompts = s.defaultSystemPrompts := by
  cases r with
  | ok data =>
      rcases data with ⟨succ, msg⟩
      cases succ <;> simp [saveSettings, showMessage]
  | notOk status => simp [saveSettings, showMessage]
  | thrown msg => simp [saveSettings, showMessage]

/-- C7: every single invocation of any handler issues at most one
network request on every execution path. -/
theorem handlers_at_most_one_request (s : PageState) (c : Bool)
    (r1 : FetchResult SettingsResponse) (r2 r3 : FetchResult MsgResponse)
    (r4 : FetchResult SearchResponse) :
    (loadSettings s r1).2.length ≤ 1 ∧
    (saveSettings s r2).2.length ≤ 1 ∧
    (resetSettings c s r3).2.length ≤ 1 ∧
    (performSearch s r4).2.length ≤ 1 := by
  refine ⟨?_, ?_, ?_, ?_⟩
  · cases r1 with
    | ok data =>
        rcases data with ⟨succ, st⟩
        cases st <;> cases succ <;> simp [loadSettings]
    | notOk status => simp [loadSettings]
    | thrown msg => simp [loadSettings]
  · cases r2 with
    | ok data =>
        rcases data with ⟨succ, msg⟩
        cases succ <;> simp [saveSettings]
    | notOk status => simp [saveSettings]
    | thrown msg => simp [saveSettings]
  · cases c with
    | false => simp [resetSettings]
    | true =>
        cases r3 with
        | ok data =>
            rcases data with ⟨succ, msg⟩
            cases succ <;> simp [resetSettings]
        | notOk status => simp [resetSettings]
        | thrown msg => simp [resetSettings]
  · by_cases hq : (jsTrim s.question) = "" <;> simp [performSearch, hq]

/-- C8: an invocation of `performSearch` with an empty trimmed question
issues no request, displays the message `Vul eerst een vraag in.`, and
leaves the loading state, answer section and references untouched. -/
theorem performSearch_empty_question (s : PageState)
    (r : FetchResult SearchResponse) (hq : (jsTrim s.question) = "") :
    (performSearch s r).1.messageArea =
      messageDiv "Vul eerst een vraag in." "error" ∧
    (performSearch s r).1.loadingDisplay = s.loadingDisplay ∧
    (performSearch s r).1.searchBtnDisabled = s.searchBtnDisabled ∧
    (performSearch s r).1.answerDisplay = s.answerDisplay ∧
    (performSearch s r).1.answerContent = s.answerContent ∧
    (performSearch s r).1.referencesContent = s.referencesContent ∧
    (performSearch s r).2 = [] := by
  simp [performSearch, hq, showMessage]

/-- Witness for `performSearch_empty_question` at a whitespace-only
question. -/
theorem performSearch_empty_question_witness :
    (performSearch state1 (FetchResult.thrown "netwerkfout")).1.messageArea =
      messageDiv "Vul eerst een vraag in." "error" ∧
    (performSearch state1 (FetchResult.thrown "netwerkfout")
      ).1.loadingDisplay = state1.loadingDisplay ∧
    (performSearch state1 (FetchResult.thrown "netwerkfout")
      ).1.searchBtnDisabled = state1.searchBtnDisabled ∧
    (performSearch state1 (FetchResult.thrown "netwerkfout")
      ).1.answerDisplay = state1.answerDisplay ∧
    (performSearch state1 (FetchResult.thrown "netwerkfout")
      ).1.answerContent = state1.answerContent ∧
    (performSearch state1 (FetchResult.thrown "netwerkfout")
      ).1.referencesContent = state1.referencesContent ∧
    (performSearch state1 (FetchResult.thrown "netwerkfout")).2 = [] :=
  performSearch_empty_question state1 (FetchResult.thrown "netwerkfout")
    (by decide)

/-- C9: every invocation of `performSearch` that starts a search ends
with the loading indicator hidden and the search button re-enabled, on
every execution path. -/
theorem performSearch_loading_restored (s : PageState)
    (r : FetchResult SearchResponse) (hq : (jsTrim s.question) ≠ "") :
    (performSearch s r).1.loadingDisplay = "none" ∧
    (performSearch s r).1.searchBtnDisabled = false := by
  simp [performSearch, hq, showLoading]

/-- Witness for `performSearch_loading_restored` at a concrete failing
fetch. -/
theorem performSearch_loading_restored_witness :
    (performSearch state0 (FetchResult.notOk 500)).1.loadingDisplay =
      "none" ∧
    (performSearch state0 (FetchResult.notOk 500)).1.searchBtnDisabled =
      false :=
  performSearch_loading_restored state0 (FetchResult.notOk 500) (by decide)

/-- C10: a declined confirmation issues no request and changes nothing;
a confirmed reset with a 2xx `success:true` response clears the settings
field and shows the success message; every failure (non-2xx, thrown, or
`success:false`) leaves the field unchanged and shows an error
message. -/
theorem resetSettings_behaviour (s : PageState)
    (r : FetchResult MsgResponse) (dOk dBad : MsgResponse)
    (status : Nat) (msg : String)
    (hOk : dOk.success = true) (hBad : dBad.success = false) :
    (resetSettings false s r).1 = s ∧
    (resetSettings false s r).2 = [] ∧
    (resetSettings true s (FetchResult.ok dOk)).1.defaultSystemPrompts =
      "" ∧
    (resetSettings true s (FetchResult.ok dOk)).1.messageArea =
      messageDiv "Instellingen gereset naar standaardwaarden!" "success" ∧
    (resetSettings true s (FetchResult.ok dBad)).1.defaultSystemPrompts =
      s.defaultSystemPrompts ∧
    (resetSettings true s (FetchResult.ok dBad)).1.messageArea =
      messageDiv ("Fout bij resetten instellingen: " ++
        jsOr dBad.message "Onbekende fout opgetreden") "error" ∧
    (resetSettings true s (FetchResult.notOk status)
      ).1.defaultSystemPrompts = s.defaultSystemPrompts ∧
    (resetSettings true s (FetchResult.notOk status)).1.messageArea =
      messageDiv ("Fout bij resetten instellingen: " ++ httpErrorMsg status)
        "error" ∧
    (resetSettings true s (FetchResult.thrown msg)
      ).1.defaultSystemPrompts = s.defaultSystemPrompts ∧
    (resetSettings true s (FetchResult.thrown msg)).1.messageArea =
      messageDiv ("Fout bij resetten instellingen: " ++ msg) "error" := by
  obtain ⟨succOk, mOk⟩ := dOk
  obtain ⟨succBad, mBad⟩ := dBad
  cases succOk with
  | false => exact Bool.noConfusion hOk
  | true =>
      cases succBad with
      | true => exact Bool.noConfusion hBad
      | false =>
          exact ⟨rfl, rfl, rfl, rfl, rfl, rfl, rfl, rfl, rfl, rfl⟩

/-- Witness for `resetSettings_behaviour` at concrete responses. -/
theorem resetSettings_behaviour_witness :
    (resetSettings true state0
      (FetchResult.ok { success := true, message := none })
      ).1.defaultSystemPrompts = "" :=
  (resetSettings_behaviour state0 (FetchResult.thrown "netwerkfout")
    { success := true, message := none }
    { success := false, message := some "kapot" }
    500 "netwerkfout" rfl rfl).2.2.1

end EConsult
